import Mathlib

/-!
# Tenant Identity & Isolation subsystem — verification development

Shallow embedding of the multi-tenant task-hub backend's security core:

* the request authentication path (`src/backend/src/middleware/auth.middleware.ts`,
  `authenticate`), which resolves a bearer token's realm, verifies the token,
  maps the realm to a tenant and attaches the identity context;
* the tenant directory (`tenant.service.ts`: `getTenantByRealm`, `getTenantById`,
  `getTenantBySlug`);
* the partition router (`utils/database.ts`: `queryWithTenant`,
  `transactionWithTenant`), which binds a pooled connection to a tenant schema
  via an interpolated `SET search_path TO <schema>, public` statement;
* the provisioning saga (`tenant.service.ts`: `createTenant`,
  `cleanupFailedProvisioning`, `suspendTenant`, `reactivateTenant`,
  `deleteTenant`);
* the public tenant lookup endpoint and the tenant admin routes
  (`api/tenant.routes.ts`).

External collaborators (Postgres, Keycloak, the JWT library) are modelled by
explicit environments stating which call succeeds, and by a small interpreter
for the session `search_path` semantics that the router's raw SQL relies on.
-/

namespace TaskHub

/-- A row of the `platform.tenants` registry table
(`tenant.service.ts`, interface `Tenant`). -/
structure Tenant where
  id : String
  name : String
  slug : String
  keycloak_realm : String
  schema_name : String
  status : String
  settings : List (String × String)
deriving DecidableEq

/-- `tenantService.getTenantByRealm`:
`SELECT * FROM platform.tenants WHERE keycloak_realm = $1`, first row or null. -/
def getTenantByRealm (registry : List Tenant) (realm : String) : Option Tenant :=
  registry.find? (fun t => t.keycloak_realm == realm)

/-- `tenantService.getTenantById`:
`SELECT * FROM platform.tenants WHERE id = $1`, first row or null. -/
def getTenantById (registry : List Tenant) (id : String) : Option Tenant :=
  registry.find? (fun t => t.id == id)

/-- `tenantService.getTenantBySlug`:
`SELECT * FROM platform.tenants WHERE slug = $1`, first row or null. -/
def getTenantBySlug (registry : List Tenant) (slug : String) : Option Tenant :=
  registry.find? (fun t => t.slug == slug)

/-- The claims a verified JWT yields (`jose.jwtVerify` payload as used by
`authenticate`: `sub`, `email`, `name`/`preferred_username`, `realm_access.roles`,
`resource_access[client].roles`). -/
structure UserClaims where
  sub : String
  email : String
  name : String
  realmRoles : List String
  resourceRoles : List (String × List String)
deriving DecidableEq

/-- Outcome of `extractRealmFromToken` + `jose.jwtVerify` for a given raw token,
abstracting the cryptographic library:
* `malformed` — the realm cannot be read from the unverified issuer claim;
* `invalid realm expired` — the realm was read but verification against that
  realm's keys threw (`expired` marks `ERR_JWT_EXPIRED`);
* `valid realm claims` — the token verified against realm `realm`'s keys with
  the expected issuer/audience and carries `claims`. -/
inductive TokenOutcome where
  | malformed : TokenOutcome
  | invalid : String → Bool → TokenOutcome
  | valid : String → UserClaims → TokenOutcome
deriving DecidableEq

/-- `req.user` as attached by `authenticate`. -/
structure AuthUser where
  id : String
  email : String
  name : String
  roles : List String
  realm : String
deriving DecidableEq

/-- `req.tenant` as attached by `authenticate` (the identity context's tenant
half: id, slug, partition identifier, realm). -/
structure TenantCtx where
  id : String
  slug : String
  schema : String
  realm : String
deriving DecidableEq

/-- The observable outcome of the `authenticate` middleware. -/
inductive AuthResult where
  /-- 401 "No valid authorization header provided". -/
  | noHeader : AuthResult
  /-- 401 "Token has expired" (`ERR_JWT_EXPIRED`). -/
  | tokenExpired : AuthResult
  /-- 401 "Invalid token" (any other verification error). -/
  | tokenInvalid : AuthResult
  /-- 403 "Invalid tenant" (verified realm matches no registry row). -/
  | unknownTenant : AuthResult
  /-- 403 "Tenant access is suspended" (tenant status ≠ active). -/
  | tenantInactive : AuthResult
  /-- `next()` is called with `req.user`/`req.tenant` attached. -/
  | success : AuthUser → TenantCtx → AuthResult
deriving DecidableEq

/-- A row of `platform.audit_logs` as written by `auditService.log`
(only the fields the claims mention). -/
structure AuditRecord where
  tenantId : Option String
  userId : Option String
  action : String
deriving DecidableEq

/-- Strips `pre` from the front of `cs`; `some rest` on success.
Used to embed `h.startsWith('Bearer ')` + `h.substring(7)` and the session's
recognition of a `SET search_path TO ` statement, at the character level (the
source's byte-position string primitives do not affect the semantics). -/
def stripPrefixChars : List Char → List Char → Option (List Char)
  | [], cs => some cs
  | p :: ps, c :: cs => if p = c then stripPrefixChars ps cs else none
  | _ :: _, [] => none

/-- `authHeader.startsWith('Bearer ') ? authHeader.substring(7) : null`. -/
def bearerToken (h : String) : Option String :=
  (stripPrefixChars "Bearer ".data h.data).map String.mk

/-- `[...new Set(roles)]`: deduplicate keeping first occurrences. -/
def jsSetDedup (l : List String) : List String :=
  l.foldl (fun acc r => if r ∈ acc then acc else acc ++ [r]) []

/-- `extractRoles` (auth.middleware.ts): realm roles, then per-client roles
namespaced `client:role`, deduplicated. -/
def extractRoles (claims : UserClaims) : List String :=
  jsSetDedup (claims.realmRoles ++
    claims.resourceRoles.flatMap (fun p => p.2.map (fun r => p.1 ++ ":" ++ r)))

/-- The `authenticate` middleware (auth.middleware.ts lines 78–180).
Inputs: the `Authorization` header, the token-verification outcome function
(abstracting `jose` + the per-realm JWKS cache), and the tenant registry.
Returns the request outcome together with the audit entries written.
Control flow mirrors the source: missing / non-Bearer header → 401 with no
audit; token failure (thrown) → caught, `auditService.logAuth('LOGIN_FAILURE')`
writes an `AUTH_LOGIN_FAILURE` entry, then 401; verified token whose realm has
no tenant → 403 (no audit, plain return); tenant not active → 403 (no audit);
otherwise `req.user`/`req.tenant` are attached. -/
def authenticate (header : Option String) (verify : String → TokenOutcome)
    (registry : List Tenant) : AuthResult × List AuditRecord :=
  match header with
  | none => (.noHeader, [])
  | some h =>
    match bearerToken h with
    | none => (.noHeader, [])
    | some token =>
      match verify token with
      | .malformed => (.tokenInvalid, [⟨none, none, "AUTH_LOGIN_FAILURE"⟩])
      | .invalid _ expired =>
          (if expired then .tokenExpired else .tokenInvalid,
           [⟨none, none, "AUTH_LOGIN_FAILURE"⟩])
      | .valid realm claims =>
        match getTenantByRealm registry realm with
        | none => (.unknownTenant, [])
        | some t =>
          if t.status ≠ "active" then (.tenantInactive, [])
          else
            (.success ⟨claims.sub, claims.email, claims.name, extractRoles claims, realm⟩
               ⟨t.id, t.slug, t.schema_name, t.keycloak_realm⟩, [])

/-! ## Partition router (`src/backend/src/utils/database.ts`)

`queryWithTenant` / `transactionWithTenant` take a pooled connection, execute
the raw interpolated statement `SET search_path TO ${tenantSchema}, public`,
run the unit of work, and call `client.release()` (no reset, no destroy).
The session semantics of `SET search_path` — Postgres splitting the list on
commas and trimming — is modelled by a small interpreter, so that the raw
string interpolation of the source is preserved and re-parsed, exactly as the
database would. -/

/-- Splits a character list at every `','` (the list separator of
`SET search_path`). Never returns `[]`. -/
def splitComma : List Char → List (List Char)
  | [] => [[]]
  | c :: cs =>
    if c = ',' then [] :: splitComma cs
    else
      match splitComma cs with
      | [] => [[c]]
      | g :: gs => (c :: g) :: gs

/-- Removes leading and trailing spaces. -/
def trimChars (cs : List Char) : List Char :=
  ((cs.dropWhile (· == ' ')).reverse.dropWhile (· == ' ')).reverse

/-- Parses the argument list of a `SET search_path TO` statement: split on
commas, trim each element. -/
def parseSearchPathArgs (cs : List Char) : List String :=
  (splitComma cs).map (fun g => String.mk (trimChars g))

/-- The raw SQL text built by string interpolation in `queryWithTenant` and
`transactionWithTenant`:
`` `SET search_path TO ${tenantSchema}, public` ``. -/
def setSearchPathStatement (tenantSchema : String) : String :=
  "SET search_path TO " ++ tenantSchema ++ ", public"

/-- Per-connection session state: the active `search_path`. -/
structure PoolClientState where
  searchPath : List String
deriving DecidableEq

/-- Postgres default session search path of a fresh pooled connection. -/
def defaultSearchPath : List String := ["$user", "public"]

/-- Executes one SQL statement against a connection's session state: a
`SET search_path TO …` statement replaces the search path with its parsed
argument list; any other statement (data statements, `BEGIN`, `COMMIT`,
`ROLLBACK`) leaves the session state unchanged. -/
def applySql (c : PoolClientState) (stmt : String) : PoolClientState :=
  match stripPrefixChars "SET search_path TO ".data stmt.data with
  | some rest => ⟨parseSearchPathArgs rest⟩
  | none => c

/-- The search path in force for the unit of work of
`queryWithTenant tenantSchema …`: the interpolated statement, re-parsed. -/
def effectiveSearchPath (tenantSchema : String) : List String :=
  parseSearchPathArgs (tenantSchema.data ++ (", public").data)

/-- Which schema holds which tables. -/
structure SchemaDB where
  tables : List (String × String)
deriving DecidableEq

/-- Postgres name resolution for an unqualified table reference: the first
schema on the search path that contains the table. -/
def resolveSchema (db : SchemaDB) (path : List String) (table : String) :
    Option String :=
  path.find? (fun s => db.tables.contains (s, table))

/-- The partition `queryWithTenant` (database.ts lines 572–598) touches for one
unqualified statement on `table`: connect, run the interpolated
`SET search_path` statement, resolve the data statement's table against the
resulting search path. -/
def queryWithTenantTouches (db : SchemaDB) (c : PoolClientState)
    (tenantSchema table : String) : Option String :=
  resolveSchema db (applySql c (setSearchPathStatement tenantSchema)).searchPath
    table

/-- A connection as it goes back to the pool: its session state, and whether it
was destroyed rather than reused (`client.release()` keeps it; the source never
passes `release(true)` and never issues `RESET`/`DISCARD`). -/
structure ReleasedClient where
  state : PoolClientState
  destroyed : Bool
deriving DecidableEq

/-- Connection effect of `queryWithTenant` (lines 572–598): take a connection,
run the `SET search_path` statement, run the data statement, then
`client.release()` in the `finally` block. -/
def queryWithTenantRelease (tenantSchema : String) (c : PoolClientState) :
    ReleasedClient :=
  let c1 := applySql c (setSearchPathStatement tenantSchema)
  ⟨c1, false⟩

/-- Connection effect of `transactionWithTenant` (lines 604–623):
`SET search_path`, `BEGIN`, the callback's statements, `COMMIT` (or
`ROLLBACK`), then `client.release()` in the `finally` block. -/
def transactionWithTenantRelease (tenantSchema : String) (c : PoolClientState) :
    ReleasedClient :=
  let c1 := applySql c (setSearchPathStatement tenantSchema)
  let c2 := applySql c1 "BEGIN"
  let c3 := applySql c2 "COMMIT"
  ⟨c3, false⟩

/-! ## Identifier derivation (`tenant.service.ts`, `createTenant`) -/

/-- `[a-z0-9]` test used by the sanitizing replacements. -/
def isLowerAlnum (c : Char) : Bool :=
  decide (('a' ≤ c ∧ c ≤ 'z') ∨ ('0' ≤ c ∧ c ≤ '9'))

/-- ``schemaName = `tenant_${request.slug.toLowerCase().replace(/[^a-z0-9]/g, '_')}` ``. -/
def schemaNameOf (slug : String) : String :=
  "tenant_" ++ String.mk ((slug.data.map Char.toLower).map
    (fun c => if isLowerAlnum c then c else '_'))

/-- ``realmName = request.slug.toLowerCase().replace(/[^a-z0-9]/g, '-')``. -/
def realmNameOf (slug : String) : String :=
  String.mk ((slug.data.map Char.toLower).map
    (fun c => if isLowerAlnum c then c else '-'))

/-! ## Concrete fixtures used by witnesses and counterexamples -/

def alphaClaims : UserClaims :=
  ⟨"user-1", "ada@alpha.io", "Ada", ["member"], [("web", ["viewer"])]⟩

def alphaTenant : Tenant :=
  ⟨"tid-alpha", "Alpha Org", "alpha", "alpha", "tenant_alpha", "active", []⟩

def betaTenant : Tenant :=
  ⟨"tid-beta", "Beta Org", "beta", "beta", "tenant_beta", "active", []⟩

def suspendedTenant : Tenant :=
  ⟨"tid-susp", "Susp Org", "susp", "susp", "tenant_susp", "suspended", []⟩

/-- A token-verification environment that accepts exactly one token for realm
`alpha`. -/
def demoVerify : String → TokenOutcome := fun t =>
  if t = "tok-alpha" then .valid "alpha" alphaClaims else .malformed

/-! ## Tenant lifecycle (`tenant.service.ts`) -/

/-- The cross-system state the provisioning saga manipulates: the
`platform.tenants` registry, the set of data partitions (schemas), the set of
Keycloak realms, the tenant-local `users` rows written via `queryWithTenant`,
and the audit log. -/
structure SysState where
  registry : List Tenant
  schemas : List String
  realms : List String
  tenantUsers : List (String × String)
  audit : List AuditRecord
deriving DecidableEq

/-- `CreateTenantRequest` (tenant.service.ts). -/
structure CreateTenantRequest where
  name : String
  slug : String
  adminEmail : String
  adminFirstName : String
  adminLastName : String
  adminPassword : String
  settings : List (String × String)
deriving DecidableEq

/-- The forward steps of `createTenant`, in source order. -/
inductive ProvStep where
  | insertRecord : ProvStep
  | createSchema : ProvStep
  | createRealm : ProvStep
  | createRoles : ProvStep
  | createClient : ProvStep
  | createAdminUser : ProvStep
  | syncAdminUser : ProvStep
  | activate : ProvStep
deriving DecidableEq

/-- Which external calls succeed during one `createTenant` run: the eight
forward steps and the three compensation calls of
`cleanupFailedProvisioning`. -/
structure ProvEnv where
  insertOk : Bool
  createSchemaOk : Bool
  createRealmOk : Bool
  createRolesOk : Bool
  createClientOk : Bool
  createUserOk : Bool
  syncUserOk : Bool
  activateOk : Bool
  compDeleteRecordOk : Bool
  compDropSchemaOk : Bool
  compDeleteRealmOk : Bool
deriving DecidableEq

/-- All eight forward steps succeed. -/
def ProvEnv.allForwardOk (env : ProvEnv) : Prop :=
  env.insertOk = true ∧ env.createSchemaOk = true ∧ env.createRealmOk = true ∧
  env.createRolesOk = true ∧ env.createClientOk = true ∧
  env.createUserOk = true ∧ env.syncUserOk = true ∧ env.activateOk = true

/-- `UPDATE platform.tenants SET status = $st WHERE id = $tid` (affects every
matching row; zero matches is not an error). -/
def setStatus (registry : List Tenant) (tid st : String) : List Tenant :=
  registry.map (fun t => if t.id == tid then { t with status := st } else t)

/-- The forward phase of `createTenant` (tenant.service.ts lines 334–424):
steps 1–8 in order, stopping at the first failing step, plus the success-path
audit entry (step 9; `auditService.log` never throws). `createRealm` treats an
already-existing realm (HTTP 409) as success, per
`keycloakService.createRealm`; role/client/user creation touch only Keycloak
state not tracked here. Returns the outcome and the state reached. -/
def runForward (env : ProvEnv) (req : CreateTenantRequest) (tid : String)
    (s0 : SysState) : Except ProvStep Tenant × SysState :=
  let schemaName := schemaNameOf req.slug
  let realmName := realmNameOf req.slug
  if !env.insertOk then (.error .insertRecord, s0) else
  let pend : Tenant := ⟨tid, req.name, req.slug, realmName, schemaName,
    "pending", req.settings⟩
  let s1 := { s0 with registry := s0.registry ++ [pend] }
  if !env.createSchemaOk then (.error .createSchema, s1) else
  let s2 := { s1 with schemas := s1.schemas ++ [schemaName] }
  if !env.createRealmOk then (.error .createRealm, s2) else
  let s3 := { s2 with realms :=
    if realmName ∈ s2.realms then s2.realms else s2.realms ++ [realmName] }
  if !env.createRolesOk then (.error .createRoles, s3) else
  if !env.createClientOk then (.error .createClient, s3) else
  if !env.createUserOk then (.error .createAdminUser, s3) else
  if !env.syncUserOk then (.error .syncAdminUser, s3) else
  let s4 := { s3 with tenantUsers := s3.tenantUsers ++ [(schemaName, req.adminEmail)] }
  if !env.activateOk then (.error .activate, s4) else
  let s5 := { s4 with registry := setStatus s4.registry tid "active" }
  let s6 := { s5 with audit := s5.audit ++ [⟨some tid, none, "TENANT_CREATED"⟩] }
  (.ok { pend with status := "active" }, s6)

/-- `cleanupFailedProvisioning` (lines 442–465): delete the registry row
(failure propagates to the caller's catch, skipping the rest), then drop the
schema inside a `try`/`catch` that swallows every error, then delete the realm
inside a `try`/`catch` that swallows every error. The returned flag records
whether the cleanup itself threw. -/
def cleanupFailedProvisioning (env : ProvEnv) (tid schemaName realmName : String)
    (s : SysState) : Bool × SysState :=
  if !env.compDeleteRecordOk then (false, s) else
  let s1 := { s with registry := s.registry.filter (fun t => t.id != tid) }
  let s2 := if env.compDropSchemaOk
    then { s1 with schemas := s1.schemas.filter (fun x => x != schemaName) }
    else s1
  let s3 := if env.compDeleteRealmOk
    then { s2 with realms := s2.realms.filter (fun r => r != realmName) }
    else s2
  (true, s3)

/-- `createTenant` (lines 334–437): run the forward phase; on any step's
failure run `cleanupFailedProvisioning` inside a `try`/`catch` whose own
failure is only logged, and rethrow the *original* step error. -/
def createTenant (env : ProvEnv) (req : CreateTenantRequest) (tid : String)
    (s0 : SysState) : Except ProvStep Tenant × SysState :=
  match runForward env req tid s0 with
  | (.ok t, s) => (.ok t, s)
  | (.error step, s) =>
    let cres := cleanupFailedProvisioning env tid (schemaNameOf req.slug)
      (realmNameOf req.slug) s
    (.error step, cres.snd)

/-- Which external calls succeed during `deleteTenant`. -/
structure DeleteEnv where
  deleteRealmOk : Bool
  dropSchemaOk : Bool
  deleteRecordOk : Bool
deriving DecidableEq

inductive DeleteError where
  | notFound : DeleteError
  | dropSchemaFailed : DeleteError
  | deleteRecordFailed : DeleteError
deriving DecidableEq

/-- `deleteTenant` (lines 620–647): look up the tenant (`Tenant not found` on
a miss); delete the Keycloak realm inside a `try`/`catch` that only logs;
drop the schema (failure propagates); delete the registry row; append a
`TENANT_DELETED` audit entry (written without a tenant id). -/
def deleteTenant (env : DeleteEnv) (tid : String) (s : SysState) :
    Except DeleteError Unit × SysState :=
  match getTenantById s.registry tid with
  | none => (.error .notFound, s)
  | some t =>
    let s1 := if env.deleteRealmOk
      then { s with realms := s.realms.filter (fun r => r != t.keycloak_realm) }
      else s
    if !env.dropSchemaOk then (.error .dropSchemaFailed, s1) else
    let s2 := { s1 with schemas := s1.schemas.filter (fun x => x != t.schema_name) }
    if !env.deleteRecordOk then (.error .deleteRecordFailed, s2) else
    let s3 := { s2 with registry := s2.registry.filter (fun u => u.id != tid) }
    (.ok (), { s3 with audit := s3.audit ++ [⟨none, none, "TENANT_DELETED"⟩] })

/-- `suspendTenant` (lines 575–595): look up the tenant first and throw
`Tenant not found` on a miss; otherwise set status `suspended` and append a
`TENANT_SUSPENDED` audit entry; the `reason` reaches only the entry's detail
payload, which is not tracked here. -/
def suspendTenant (tid reason : String) (s : SysState) :
    Except String Unit × SysState :=
  match getTenantById s.registry tid with
  | none => (.error "Tenant not found", s)
  | some _ =>
    let s1 := { s with registry := setStatus s.registry tid "suspended" }
    (.ok (), { s1 with audit := s1.audit ++ [⟨some tid, none, "TENANT_SUSPENDED"⟩] })

/-- `reactivateTenant` (lines 600–614): *no* existence check — run the status
update (zero affected rows is fine) and append a `TENANT_REACTIVATED` audit
entry unconditionally. The `reason` of a suspension has no analogue here. -/
def reactivateTenant (tid : String) (s : SysState) :
    Except String Unit × SysState :=
  let s1 := { s with registry := setStatus s.registry tid "active" }
  (.ok (), { s1 with audit := s1.audit ++ [⟨some tid, none, "TENANT_REACTIVATED"⟩] })

/-- Fixtures for the lifecycle witnesses. -/
def provReq : CreateTenantRequest :=
  ⟨"Acme Inc", "acme", "root@acme.io", "Ann", "Admin", "hunter2!x", []⟩

def emptySysState : SysState := ⟨[], [], [], [], []⟩

/-- Every forward step succeeds; compensation succeeds too. -/
def allOkProvEnv : ProvEnv :=
  ⟨true, true, true, true, true, true, true, true, true, true, true⟩

/-- Step 3 (realm creation) fails; compensation succeeds. -/
def realmFailEnv : ProvEnv :=
  ⟨true, true, false, true, true, true, true, true, true, true, true⟩

def allOkDeleteEnv : DeleteEnv := ⟨true, true, true⟩

/-! ## REST surface (`api/tenant.routes.ts`) -/

/-- A middleware in an Express route chain, as the routers compose them. -/
inductive Middleware where
  /-- `authenticate`. -/
  | authMw : Middleware
  /-- `requireRole(...roles)`. -/
  | roleMw : List String → Middleware
  /-- `validate([...])`. -/
  | validateMw : Middleware
deriving DecidableEq

/-- Outcome of running a route's middleware chain ending in its handler. -/
inductive RouteOutcome where
  /-- 401, from `authenticate` or `requireRole` without `req.user`. -/
  | unauthorized : RouteOutcome
  /-- 403, from `requireRole` on missing roles. -/
  | forbidden : RouteOutcome
  /-- 400, from `validate`. -/
  | validationFailed : RouteOutcome
  /-- The route handler executed. -/
  | handled : RouteOutcome
deriving DecidableEq

/-- The request-side facts the middlewares consult: whether the request
carries an identity `authenticate` accepts (with its role set), and whether
the body/params pass the validation chains. -/
structure RouteRequest where
  identity : Option AuthUser
  inputValid : Bool
deriving DecidableEq

/-- Runs a middleware chain: `authenticate` 401s a request without a valid
identity, `requireRole` 401s without `req.user` and 403s when no required
role is held (`.some` matches the source's `allowedRoles.some(...)`),
`validate` 400s invalid input; an exhausted chain reaches the handler. -/
def runChain (req : RouteRequest) : List Middleware → RouteOutcome
  | [] => .handled
  | .authMw :: rest =>
    match req.identity with
    | none => .unauthorized
    | some _ => runChain req rest
  | .roleMw roles :: rest =>
    match req.identity with
    | none => .unauthorized
    | some u =>
      if roles.any (fun r => u.roles.contains r) then runChain req rest
      else .forbidden
  | .validateMw :: rest =>
    if req.inputValid then runChain req rest else .validationFailed

/-- `POST /api/tenants` (tenant.routes.ts lines 68–99): the chain is
`validate(createTenantValidation)` then the handler — it contains neither
`authenticate` nor `requireRole`. -/
def createTenantRouteChain : List Middleware := [.validateMw]

/-- `POST /api/tenants/:id/suspend` (lines 268–282): `validate` only. -/
def suspendRouteChain : List Middleware := [.validateMw]

/-- `POST /api/tenants/:id/reactivate` (lines 290–303): `validate` only. -/
def reactivateRouteChain : List Middleware := [.validateMw]

/-- `DELETE /api/tenants/:id` (lines 311–324): `validate` only. -/
def deleteRouteChain : List Middleware := [.validateMw]

/-- For contrast: `PATCH /api/tenants/:id/settings` (lines 231–260) chains
`authenticate`, `requireRole('admin')`, `validate`. -/
def updateSettingsRouteChain : List Middleware :=
  [.authMw, .roleMw ["admin"], .validateMw]

/-! ## Public tenant lookup (`GET /api/tenants/lookup/:slug`) -/

/-- A Keycloak identity-provider entry as returned by
`keycloakService.getIdentityProviders` (`alias` is a Lean keyword, hence
`idpAlias`). -/
structure IdentityProvider where
  idpAlias : String
  displayName : Option String
  enabled : Bool
deriving DecidableEq

/-- `idps.filter(idp => idp.enabled).map(idp => ({ alias: idp.alias,
displayName: idp.displayName || idp.alias }))`. -/
def idpView (idps : List IdentityProvider) : List (String × String) :=
  (idps.filter (fun i => i.enabled)).map
    (fun i => (i.idpAlias, i.displayName.getD i.idpAlias))

/-- The `data` object of the lookup route's 200 response (tenant.routes.ts
lines 176–190): id, name, slug, realm, status, the settings filtered to
`theme` and `logo`, and the realm's enabled identity providers. There is no
field carrying the tenant's `schema_name`. -/
structure LookupResponseData where
  id : String
  name : String
  slug : String
  realm : String
  status : String
  settingsTheme : Option String
  settingsLogo : Option String
  identityProviders : List (String × String)
deriving DecidableEq

/-- The response body the lookup route builds for a found tenant. -/
def lookupTenantResponse (t : Tenant) (idps : List IdentityProvider) :
    LookupResponseData :=
  ⟨t.id, t.name, t.slug, t.keycloak_realm, t.status,
    t.settings.lookup "theme", t.settings.lookup "logo", idpView idps⟩

/-- `GET /api/tenants/lookup/:slug`: resolve the slug via `getTenantBySlug`
(404 → `none` on a miss), else the 200 body. -/
def lookupTenantEndpoint (registry : List Tenant)
    (idps : List IdentityProvider) (slug : String) :
    Option LookupResponseData :=
  (getTenantBySlug registry slug).map (fun t => lookupTenantResponse t idps)

/-- Stripping a prefix from a list that starts with it yields the remainder. -/
theorem stripPrefixChars_append (p cs : List Char) :
    stripPrefixChars p (p ++ cs) = some cs := by
  induction p with
  | nil => rfl
  | cons a ps ih => simp [stripPrefixChars, ih]

/-- `bearerToken` on a well-formed header returns the raw token. -/
theorem bearerToken_append (token : String) :
    bearerToken ("Bearer " ++ token) = some token := by
  have h := stripPrefixChars_append "Bearer ".data token.data
  simp only [bearerToken, String.data_append]
  simp only [String.data] at h
  rw [h]
  rfl

/-- If realm names are unique in the registry, `getTenantByRealm` returns
exactly the member holding that realm. -/
theorem getTenantByRealm_of_unique (registry : List Tenant) (T : Tenant)
    (hU : ∀ t1 ∈ registry, ∀ t2 ∈ registry,
      t1.keycloak_realm = t2.keycloak_realm → t1 = t2)
    (hT : T ∈ registry) :
    getTenantByRealm registry T.keycloak_realm = some T := by
  induction registry with
  | nil => simp at hT
  | cons a l ih =>
    by_cases h : a.keycloak_realm = T.keycloak_realm
    · have ha : a = T := hU a (List.mem_cons_self a l) T hT h
      subst ha
      simp [getTenantByRealm, List.find?]
    · have hne : (a.keycloak_realm == T.keycloak_realm) = false := by
        simp [h]
      have hTl : T ∈ l := by
        rcases List.mem_cons.mp hT with h' | h'
        · exact absurd (by rw [h']) h
        · exact h'
      have hU' : ∀ t1 ∈ l, ∀ t2 ∈ l,
          t1.keycloak_realm = t2.keycloak_realm → t1 = t2 := by
        intro t1 h1 t2 h2 he
        exact hU t1 (List.mem_cons_of_mem a h1) t2 (List.mem_cons_of_mem a h2) he
      simpa [getTenantByRealm, List.find?, hne] using ih hU' hTl

/-- **C1.** For every bearer token that verifies successfully against the keys
of realm `R`, where `R` maps in the registry to a tenant `T` with status
`active`, `authenticate` attaches an identity context whose tenant id equals
`T.id` and whose partition identifier equals `T.schema_name` — realm names
being unique in the registry, never those of any other tenant. -/
theorem authenticate_active_tenant_identity
    (verify : String → TokenOutcome) (registry : List Tenant)
    (R token : String) (claims : UserClaims) (T : Tenant)
    (hU : ∀ t1 ∈ registry, ∀ t2 ∈ registry,
      t1.keycloak_realm = t2.keycloak_realm → t1 = t2)
    (hT : T ∈ registry) (hR : T.keycloak_realm = R) (hActive : T.status = "active")
    (hVerify : verify token = TokenOutcome.valid R claims) :
    (authenticate (some ("Bearer " ++ token)) verify registry).fst =
      AuthResult.success
        ⟨claims.sub, claims.email, claims.name, extractRoles claims, R⟩
        ⟨T.id, T.slug, T.schema_name, T.keycloak_realm⟩ := by
  have hFind : getTenantByRealm registry R = some T := by
    rw [← hR]
    exact getTenantByRealm_of_unique registry T hU hT
  simp [authenticate, bearerToken_append, hVerify, hFind, hActive]

/-- Witness for C1 at a concrete two-tenant registry. -/
theorem authenticate_active_tenant_identity_witness :
    alphaTenant.status = "active" ∧
    (authenticate (some ("Bearer " ++ "tok-alpha")) demoVerify
        [alphaTenant, betaTenant]).fst =
      AuthResult.success
        ⟨"user-1", "ada@alpha.io", "Ada", extractRoles alphaClaims, "alpha"⟩
        ⟨"tid-alpha", "alpha", "tenant_alpha", "alpha"⟩ :=
  ⟨rfl,
    authenticate_active_tenant_identity demoVerify [alphaTenant, betaTenant]
      "alpha" "tok-alpha" alphaClaims alphaTenant (by decide) (by decide)
      (by decide) (by decide) (by decide)⟩

/-- **C4 counterexample.** An authentication attempt that fails because the
verified realm has no matching tenant returns `Forbidden` with *no* audit
entry emitted: the emitted audit list is empty, refuting the claim that every
authentication failure produces an audit entry. -/
theorem authenticate_unknown_realm_no_audit_cex :
    (authenticate (some "Bearer tok-alpha")
        (fun _ => .valid "ghost" alphaClaims) []).fst = AuthResult.unknownTenant ∧
    (authenticate (some "Bearer tok-alpha")
        (fun _ => .valid "ghost" alphaClaims) []).snd = [] := by
  exact ⟨rfl, rfl⟩

/-- **C4 (amended).** `authenticate` writes an audit entry (action
`AUTH_LOGIN_FAILURE`, tenant unset) exactly when token verification itself
fails (malformed, invalid or expired token); missing-header, unknown-realm and
inactive-tenant failures, as well as success, emit no audit entry. -/
theorem authenticate_audit_characterization
    (header : Option String) (verify : String → TokenOutcome)
    (registry : List Tenant) :
    ((authenticate header verify registry).snd =
        [⟨none, none, "AUTH_LOGIN_FAILURE"⟩] ∧
      ((authenticate header verify registry).fst = AuthResult.tokenExpired ∨
       (authenticate header verify registry).fst = AuthResult.tokenInvalid)) ∨
    ((authenticate header verify registry).snd = [] ∧
      (authenticate header verify registry).fst ≠ AuthResult.tokenExpired ∧
      (authenticate header verify registry).fst ≠ AuthResult.tokenInvalid) := by
  cases header with
  | none => simp [authenticate]
  | some h =>
    cases hb : bearerToken h with
    | none => simp [authenticate, hb]
    | some token =>
      cases hv : verify token with
      | malformed => simp [authenticate, hb, hv]
      | invalid r e => cases e <;> simp [authenticate, hb, hv]
      | valid realm claims =>
        cases hf : getTenantByRealm registry realm with
        | none => simp [authenticate, hb, hv, hf]
        | some t =>
          by_cases hs : t.status = "active" <;>
            simp [authenticate, hb, hv, hf, hs]

/-- **C5 counterexample.** An *expired* token whose issuer realm maps to a
suspended tenant fails with the token-expiry outcome (401), not with the
tenant-inactive outcome: token verification runs before the tenant status
check, so the claim "regardless of whether the token itself is valid, expired,
or otherwise invalid" fails. -/
theorem authenticate_expired_token_suspended_tenant_cex :
    (authenticate (some "Bearer t0") (fun _ => .invalid "susp" true)
        [suspendedTenant]).fst = AuthResult.tokenExpired ∧
    AuthResult.tokenExpired ≠ AuthResult.tenantInactive := by
  exact ⟨rfl, by decide⟩

/-- **C5 (amended).** For every *valid* token whose realm maps to a tenant with
status ≠ `active`, authentication fails with the tenant-inactive outcome (403
"Tenant access is suspended"); for invalid or expired tokens the token error
takes precedence instead. -/
theorem authenticate_valid_token_inactive_tenant
    (verify : String → TokenOutcome) (registry : List Tenant)
    (realm token : String) (claims : UserClaims) (t : Tenant)
    (hVerify : verify token = TokenOutcome.valid realm claims)
    (hFind : getTenantByRealm registry realm = some t)
    (hStatus : t.status ≠ "active") :
    (authenticate (some ("Bearer " ++ token)) verify registry).fst =
      AuthResult.tenantInactive := by
  simp [authenticate, bearerToken_append, hVerify, hFind, hStatus]

/-- `splitComma` never produces the empty list of groups. -/
theorem splitComma_ne_nil (cs : List Char) : splitComma cs ≠ [] := by
  cases cs with
  | nil => simp [splitComma]
  | cons c cs' =>
    unfold splitComma
    by_cases h : c = ','
    · simp [h]
    · rw [if_neg h]
      cases splitComma cs' <;> simp

/-- Unfolding equation of `splitComma` at a non-comma head. -/
theorem splitComma_cons_ne (c : Char) (cs : List Char) (h : c ≠ ',') :
    splitComma (c :: cs) =
      match splitComma cs with
      | [] => [[c]]
      | g :: gs => (c :: g) :: gs := by
  conv_lhs => unfold splitComma
  rw [if_neg h]

/-- Splitting `cs ++ ds` where `cs` is comma-free: `cs` fuses with the first
group of `ds`'s split. -/
theorem splitComma_append (cs ds : List Char) (h : ∀ c ∈ cs, c ≠ ',') :
    splitComma (cs ++ ds) =
      (cs ++ (splitComma ds).headI) :: (splitComma ds).tail := by
  induction cs with
  | nil =>
    cases hd : splitComma ds with
    | nil => exact absurd hd (splitComma_ne_nil ds)
    | cons g gs => simp [hd]
  | cons c cs' ih =>
    have hc : c ≠ ',' := h c (List.mem_cons_self c cs')
    have h' : ∀ x ∈ cs', x ≠ ',' := fun x hx => h x (List.mem_cons_of_mem c hx)
    rw [List.cons_append, splitComma_cons_ne c (cs' ++ ds) hc, ih h']
    rfl

/-- `dropWhile` of the space test is the identity on space-free lists. -/
theorem dropWhile_space_eq_self (cs : List Char) (h : ∀ c ∈ cs, c ≠ ' ') :
    cs.dropWhile (· == ' ') = cs := by
  cases cs with
  | nil => rfl
  | cons c cs' =>
    have hb : (c == ' ') = false := by
      simpa using h c (List.mem_cons_self c cs')
    simp [List.dropWhile, hb]

/-- Trimming is the identity on space-free lists. -/
theorem trimChars_eq_self (cs : List Char) (h : ∀ c ∈ cs, c ≠ ' ') :
    trimChars cs = cs := by
  unfold trimChars
  rw [dropWhile_space_eq_self cs h,
    dropWhile_space_eq_self cs.reverse (fun c hc => h c (List.mem_reverse.mp hc))]
  exact List.reverse_reverse cs

/-- Running the interpolated `SET search_path` statement puts exactly the
re-parsed interpolation result into the session. -/
theorem applySql_setStatement (c : PoolClientState) (A : String) :
    applySql c (setSearchPathStatement A) = ⟨effectiveSearchPath A⟩ := by
  have h : (setSearchPathStatement A).data =
      "SET search_path TO ".data ++ (A.data ++ (", public").data) := by
    simp [setSearchPathStatement, String.data_append, List.append_assoc]
  unfold applySql
  rw [h, stripPrefixChars_append]
  rfl

/-- For a schema identifier free of commas and spaces, the interpolated
statement binds the session to exactly `[schema, public]`. -/
theorem effectiveSearchPath_sanitized (ts : String)
    (h : ∀ c ∈ ts.data, c ≠ ',' ∧ c ≠ ' ') :
    effectiveSearchPath ts = [ts, "public"] := by
  unfold effectiveSearchPath parseSearchPathArgs
  rw [splitComma_append _ _ (fun c hc => (h c hc).1)]
  have h2 : splitComma (", public").data =
      [[], [' ', 'p', 'u', 'b', 'l', 'i', 'c']] := by decide
  rw [h2]
  simp only [List.headI, List.tail_cons, List.append_nil, List.map_cons,
    List.map_nil]
  rw [trimChars_eq_self ts.data (fun c hc => (h c hc).2)]
  rfl

/-- Every character of a schema name derived from a slug is a lowercase
letter, a digit or `'_'` — in particular neither a comma nor a space. -/
theorem schemaNameOf_chars (slug : String) :
    ∀ c ∈ (schemaNameOf slug).data, c ≠ ',' ∧ c ≠ ' ' := by
  intro c hc
  unfold schemaNameOf at hc
  rw [String.data_append] at hc
  rcases List.mem_append.mp hc with hpre | hmap
  · have hpre' : c ∈ ['t', 'e', 'n', 'a', 'n', 't', '_'] := hpre
    simp only [List.mem_cons, List.not_mem_nil, or_false] at hpre'
    rcases hpre' with rfl | rfl | rfl | rfl | rfl | rfl | rfl <;>
      exact ⟨by decide, by decide⟩
  · have hmap' : c ∈ (slug.data.map Char.toLower).map
        (fun c => if isLowerAlnum c then c else '_') := hmap
    rcases List.mem_map.mp hmap' with ⟨d, _, hcd⟩
    by_cases hk : isLowerAlnum d
    · rw [if_pos hk] at hcd
      subst hcd
      have hk' := of_decide_eq_true hk
      constructor
      · rintro rfl
        rcases hk' with ⟨h1, _⟩ | ⟨h1, _⟩ <;> exact absurd h1 (by decide)
      · rintro rfl
        rcases hk' with ⟨h1, _⟩ | ⟨h1, _⟩ <;> exact absurd h1 (by decide)
    · rw [if_neg hk] at hcd
      subst hcd
      exact ⟨by decide, by decide⟩

/-- **C2 counterexample.** The partition identifier is interpolated into the
raw `SET search_path` statement, so an adversarial identifier smuggles a
second schema onto the search path: a unit of work issued under the identifier
`"tenant_evil, tenant_beta"` resolves its statement against — and therefore
reads rows of — tenant beta's partition `tenant_beta`, a different partition
than the identifier it was issued under. -/
theorem queryWithTenant_injection_cex :
    queryWithTenantTouches ⟨[("tenant_beta", "projects")]⟩ ⟨defaultSearchPath⟩
        "tenant_evil, tenant_beta" "projects" = some "tenant_beta" ∧
    ("tenant_beta" : String) ≠ "tenant_evil, tenant_beta" := by
  exact ⟨rfl, by decide⟩

/-- **C2 (amended).** For partition identifiers actually produced by the
provisioning saga — `tenant_` followed by the lower-cased slug with every
non-alphanumeric replaced by `_` — the interpolated statement binds the search
path to exactly `[schema, public]`, so a unit of work under tenant A's
partition can only touch A's partition or the shared `public` schema, never a
different tenant's partition `B`. -/
theorem queryWithTenant_sanitized_isolated
    (db : SchemaDB) (c : PoolClientState) (slug table B : String)
    (hB1 : B ≠ schemaNameOf slug) (hB2 : B ≠ "public") :
    queryWithTenantTouches db c (schemaNameOf slug) table ≠ some B := by
  intro htouch
  unfold queryWithTenantTouches at htouch
  rw [applySql_setStatement,
    effectiveSearchPath_sanitized _ (schemaNameOf_chars slug)] at htouch
  have hmem : B ∈ [schemaNameOf slug, "public"] :=
    List.mem_of_find?_eq_some htouch
  simp only [List.mem_cons, List.not_mem_nil, or_false] at hmem
  rcases hmem with h | h
  · exact hB1 h
  · exact hB2 h

/-- Witness for the amended C2 at a concrete slug and foreign schema. -/
theorem queryWithTenant_sanitized_isolated_witness :
    ("tenant_other" : String) ≠ schemaNameOf "acme" ∧
    queryWithTenantTouches ⟨[("tenant_other", "projects")]⟩ ⟨defaultSearchPath⟩
        (schemaNameOf "acme") "projects" ≠ some "tenant_other" :=
  ⟨by decide,
    queryWithTenant_sanitized_isolated ⟨[("tenant_other", "projects")]⟩
      ⟨defaultSearchPath⟩ "acme" "projects" "tenant_other"
      (by decide) (by decide)⟩

/-- **C3 counterexample.** After `queryWithTenant` for schema `tenant_alpha`
on a fresh connection, the connection goes back to the pool (`client.release()`
with no argument: not discarded) still carrying `tenant_alpha`'s search path:
its partition binding is neither reset to the default nor is the connection
discarded, refuting the claim. -/
theorem queryWithTenant_release_no_reset_cex :
    (queryWithTenantRelease "tenant_alpha" ⟨defaultSearchPath⟩).destroyed
        = false ∧
    (queryWithTenantRelease "tenant_alpha" ⟨defaultSearchPath⟩).state.searchPath
        = ["tenant_alpha", "public"] ∧
    (["tenant_alpha", "public"] : List String) ≠ defaultSearchPath := by
  exact ⟨rfl, rfl, by decide⟩

/-- **C3 (amended).** Both `queryWithTenant` and `transactionWithTenant`
release the connection to the pool undiscarded and still bound to the
borrow's search path, so the pooled connection does carry its previous
partition binding to the next borrower; the next *tenant-scoped* borrow is
unaffected only because it overwrites the binding with its own
`SET search_path` before running its statements. -/
theorem tenant_connection_release_carries_binding
    (A B : String) (c : PoolClientState) :
    (queryWithTenantRelease A c).destroyed = false ∧
    (queryWithTenantRelease A c).state.searchPath = effectiveSearchPath A ∧
    (transactionWithTenantRelease A c).destroyed = false ∧
    (transactionWithTenantRelease A c).state.searchPath
        = effectiveSearchPath A ∧
    (queryWithTenantRelease B (queryWithTenantRelease A c).state).state.searchPath
        = effectiveSearchPath B := by
  refine ⟨rfl, ?_, rfl, ?_, ?_⟩
  · rw [queryWithTenantRelease, applySql_setStatement]
  · show (applySql (applySql (applySql c (setSearchPathStatement A))
      "BEGIN") "COMMIT").searchPath = effectiveSearchPath A
    rw [applySql_setStatement]
    rfl
  · show (applySql (applySql c (setSearchPathStatement A))
      (setSearchPathStatement B)).searchPath = effectiveSearchPath B
    rw [applySql_setStatement]

/-- Witness for the amended C5 at a concrete suspended tenant. -/
theorem authenticate_valid_token_inactive_tenant_witness :
    suspendedTenant.status ≠ "active" ∧
    (authenticate (some ("Bearer " ++ "t0"))
        (fun _ => .valid "susp" alphaClaims) [suspendedTenant]).fst =
      AuthResult.tenantInactive :=
  ⟨by decide,
    authenticate_valid_token_inactive_tenant
      (fun _ => .valid "susp" alphaClaims) [suspendedTenant]
      "susp" "t0" alphaClaims suspendedTenant (by decide) (by decide) (by decide)⟩

/-- Rows surviving the registry-row delete differ from the deleted id. -/
theorem mem_registry_filter_ne (tid : String) (l : List Tenant) :
    ∀ u ∈ l.filter (fun u => u.id != tid), u.id ≠ tid := by
  intro u hu
  have h := (List.mem_filter.mp hu).2
  simpa using h

/-- A name never survives the filter that removes it. -/
theorem not_mem_filter_self (x : String) (l : List String) :
    x ∉ l.filter (fun s => s != x) := by
  intro hx
  have h := (List.mem_filter.mp hx).2
  simp at h

/-- A status update for an id not present leaves the registry unchanged
(zero affected rows). -/
theorem setStatus_of_absent (reg : List Tenant) (tid st : String)
    (h : ∀ t ∈ reg, t.id ≠ tid) : setStatus reg tid st = reg := by
  induction reg with
  | nil => rfl
  | cons a l ih =>
    have ha : (a.id == tid) = false := by
      simpa using h a (List.mem_cons_self a l)
    have h' : ∀ t ∈ l, t.id ≠ tid := fun t ht => h t (List.mem_cons_of_mem a ht)
    have hone : (if a.id == tid then { a with status := st } else a) = a := by
      simp [ha]
    calc setStatus (a :: l) tid st
        = (if a.id == tid then { a with status := st } else a)
            :: setStatus l tid st := rfl
      _ = a :: l := by rw [hone, ih h']

/-- Looking up the freshly inserted row after the activate update yields that
row with status updated, provided its id is fresh w.r.t. the prior registry. -/
theorem getTenantById_setStatus_append (reg : List Tenant) (t : Tenant)
    (tid st : String) (hid : t.id = tid) (h : ∀ u ∈ reg, u.id ≠ tid) :
    getTenantById (setStatus (reg ++ [t]) tid st) tid
      = some { t with status := st } := by
  unfold getTenantById setStatus
  rw [List.map_append, List.find?_append]
  have h1 : (reg.map (fun u => if u.id == tid then { u with status := st } else u)).find?
      (fun u => u.id == tid) = none := by
    rw [List.find?_eq_none]
    intro x hx
    rcases List.mem_map.mp hx with ⟨v, hv, hvx⟩
    have hne : (v.id == tid) = false := by simpa using h v hv
    simp only [hne, Bool.false_eq_true, if_false] at hvx
    subst hvx
    simp [hne]
  rw [h1]
  have ht : (t.id == tid) = true := by simp [hid]
  simp [List.find?, ht, hid]

/-- **C10.** `reactivateTenant` with an id matching no registry row succeeds:
no error, the status update affects zero rows, and a `TENANT_REACTIVATED`
audit entry is still appended — whereas `suspendTenant` with the same id
raises `Tenant not found` and changes nothing. -/
theorem reactivate_noop_vs_suspend_notfound
    (tid reason : String) (s : SysState)
    (h : ∀ t ∈ s.registry, t.id ≠ tid) :
    (reactivateTenant tid s).fst = Except.ok () ∧
    (reactivateTenant tid s).snd.registry = s.registry ∧
    (reactivateTenant tid s).snd.audit
      = s.audit ++ [⟨some tid, none, "TENANT_REACTIVATED"⟩] ∧
    (suspendTenant tid reason s).fst = Except.error "Tenant not found" ∧
    (suspendTenant tid reason s).snd = s := by
  have hfind : getTenantById s.registry tid = none := by
    rw [getTenantById, List.find?_eq_none]
    intro x hx
    simpa using h x hx
  refine ⟨rfl, ?_, rfl, ?_, ?_⟩
  · show setStatus s.registry tid "active" = s.registry
    exact setStatus_of_absent s.registry tid "active" h
  · show (suspendTenant tid reason s).fst = Except.error "Tenant not found"
    unfold suspendTenant
    rw [hfind]
  · show (suspendTenant tid reason s).snd = s
    unfold suspendTenant
    rw [hfind]

/-- Witness state for C10: one tenant, none with the probed id. -/
def ghostProbeState : SysState := ⟨[alphaTenant], [], [], [], []⟩

/-- Witness for C10 at a concrete registry and missing id. -/
theorem reactivate_noop_vs_suspend_notfound_witness :
    (∀ t ∈ ghostProbeState.registry, t.id ≠ "tid-ghost") ∧
    ((reactivateTenant "tid-ghost" ghostProbeState).fst = Except.ok () ∧
     (reactivateTenant "tid-ghost" ghostProbeState).snd.registry
        = ghostProbeState.registry ∧
     (reactivateTenant "tid-ghost" ghostProbeState).snd.audit
        = ghostProbeState.audit ++ [⟨some "tid-ghost", none, "TENANT_REACTIVATED"⟩] ∧
     (suspendTenant "tid-ghost" "why" ghostProbeState).fst
        = Except.error "Tenant not found" ∧
     (suspendTenant "tid-ghost" "why" ghostProbeState).snd = ghostProbeState) :=
  ⟨by decide,
    reactivate_noop_vs_suspend_notfound "tid-ghost" "why" ghostProbeState (by decide)⟩

/-- **C6.** When any forward step of `createTenant` fails, the original step
error is what the caller sees (never a compensation failure), and — provided
the compensation's registry delete succeeds — the registry row is removed;
the partition and realm are removed best-effort (whenever the respective
compensation call succeeds; its errors are swallowed). -/
theorem createTenant_compensation
    (env : ProvEnv) (req : CreateTenantRequest) (tid : String) (s0 : SysState)
    (step : ProvStep)
    (hFail : (runForward env req tid s0).fst = Except.error step) :
    (createTenant env req tid s0).fst = Except.error step ∧
    (env.compDeleteRecordOk = true →
      ∀ u ∈ (createTenant env req tid s0).snd.registry, u.id ≠ tid) ∧
    (env.compDeleteRecordOk = true → env.compDropSchemaOk = true →
      schemaNameOf req.slug ∉ (createTenant env req tid s0).snd.schemas) ∧
    (env.compDeleteRecordOk = true → env.compDeleteRealmOk = true →
      realmNameOf req.slug ∉ (createTenant env req tid s0).snd.realms) := by
  have hrf : runForward env req tid s0 =
      (Except.error step, (runForward env req tid s0).snd) :=
    Prod.ext hFail rfl
  have hct : createTenant env req tid s0 =
      (Except.error step,
        (cleanupFailedProvisioning env tid (schemaNameOf req.slug)
          (realmNameOf req.slug) ((runForward env req tid s0).snd)).snd) := by
    unfold createTenant
    rw [hrf]
  rw [hct]
  unfold cleanupFailedProvisioning
  cases hcr : env.compDeleteRecordOk
  · refine ⟨rfl, ?_, ?_, ?_⟩ <;> simp [hcr]
  · cases hds : env.compDropSchemaOk <;> cases hdr : env.compDeleteRealmOk <;>
      refine ⟨rfl, fun _ => mem_registry_filter_ne tid _, ?_, ?_⟩ <;>
      simp [hds, hdr]

/-- Witness for C6: realm creation fails on an empty system, compensation
succeeds. -/
theorem createTenant_compensation_witness :
    (runForward realmFailEnv provReq "tid-1" emptySysState).fst
        = Except.error ProvStep.createRealm ∧
    ((createTenant realmFailEnv provReq "tid-1" emptySysState).fst
        = Except.error ProvStep.createRealm ∧
     (realmFailEnv.compDeleteRecordOk = true →
        ∀ u ∈ (createTenant realmFailEnv provReq "tid-1" emptySysState).snd.registry,
        u.id ≠ "tid-1") ∧
     (realmFailEnv.compDeleteRecordOk = true →
      realmFailEnv.compDropSchemaOk = true →
        schemaNameOf provReq.slug ∉
          (createTenant realmFailEnv provReq "tid-1" emptySysState).snd.schemas) ∧
     (realmFailEnv.compDeleteRecordOk = true →
      realmFailEnv.compDeleteRealmOk = true →
        realmNameOf provReq.slug ∉
          (createTenant realmFailEnv provReq "tid-1" emptySysState).snd.realms)) :=
  ⟨rfl, createTenant_compensation realmFailEnv provReq "tid-1" emptySysState
    ProvStep.createRealm rfl⟩

/-- **C9.** A successful `createTenant` followed by `deleteTenant` on the new
tenant's id (with the delete's three external calls succeeding) leaves no
registry row with that id, no data partition and no identity realm for that
tenant. -/
theorem createTenant_deleteTenant_roundtrip
    (env : ProvEnv) (denv : DeleteEnv) (req : CreateTenantRequest)
    (tid : String) (s0 : SysState)
    (hf : env.allForwardOk)
    (hfresh : ∀ u ∈ s0.registry, u.id ≠ tid)
    (hd1 : denv.deleteRealmOk = true) (hd2 : denv.dropSchemaOk = true)
    (hd3 : denv.deleteRecordOk = true) :
    (∃ t, (createTenant env req tid s0).fst = Except.ok t) ∧
    (deleteTenant denv tid (createTenant env req tid s0).snd).fst
        = Except.ok () ∧
    (∀ u ∈ (deleteTenant denv tid (createTenant env req tid s0).snd).snd.registry,
      u.id ≠ tid) ∧
    schemaNameOf req.slug ∉
      (deleteTenant denv tid (createTenant env req tid s0).snd).snd.schemas ∧
    realmNameOf req.slug ∉
      (deleteTenant denv tid (createTenant env req tid s0).snd).snd.realms := by
  obtain ⟨h1, h2, h3, h4, h5, h6, h7, h8⟩ := hf
  simp only [createTenant, runForward, h1, h2, h3, h4, h5, h6, h7, h8,
    Bool.not_true, Bool.false_eq_true, if_false]
  have hfind := getTenantById_setStatus_append s0.registry
    ⟨tid, req.name, req.slug, realmNameOf req.slug, schemaNameOf req.slug,
      "pending", req.settings⟩
    tid "active" rfl hfresh
  simp only [deleteTenant, hfind, hd1, hd2, hd3, Bool.not_true,
    Bool.false_eq_true, if_false, if_true]
  exact ⟨⟨_, rfl⟩, trivial, mem_registry_filter_ne tid _,
    not_mem_filter_self _ _, not_mem_filter_self _ _⟩

/-- Witness for C9: provision `acme` on an empty system, then delete it. -/
theorem createTenant_deleteTenant_roundtrip_witness :
    allOkProvEnv.allForwardOk ∧
    ((∃ t, (createTenant allOkProvEnv provReq "tid-1" emptySysState).fst
        = Except.ok t) ∧
     (deleteTenant allOkDeleteEnv "tid-1"
        (createTenant allOkProvEnv provReq "tid-1" emptySysState).snd).fst
        = Except.ok () ∧
     (∀ u ∈ (deleteTenant allOkDeleteEnv "tid-1"
        (createTenant allOkProvEnv provReq "tid-1" emptySysState).snd).snd.registry,
        u.id ≠ "tid-1") ∧
     schemaNameOf provReq.slug ∉
       (deleteTenant allOkDeleteEnv "tid-1"
        (createTenant allOkProvEnv provReq "tid-1" emptySysState).snd).snd.schemas ∧
     realmNameOf provReq.slug ∉
       (deleteTenant allOkDeleteEnv "tid-1"
        (createTenant allOkProvEnv provReq "tid-1" emptySysState).snd).snd.realms) :=
  ⟨⟨rfl, rfl, rfl, rfl, rfl, rfl, rfl, rfl⟩,
    createTenant_deleteTenant_roundtrip allOkProvEnv allOkDeleteEnv provReq
      "tid-1" emptySysState ⟨rfl, rfl, rfl, rfl, rfl, rfl, rfl, rfl⟩
      (fun u hu => absurd hu (List.not_mem_nil u)) rfl rfl rfl⟩

/-- **C7 (code bug).** An unauthenticated request (no identity attached) with
a valid body reaches the handler of the provisioning, suspend, reactivate and
delete routes: their middleware chains contain neither `authenticate` nor
`requireRole`, so these privileged lifecycle operations execute for
unauthenticated callers — while the settings route, which does chain
`authenticate`, rejects the same request with 401. -/
theorem tenant_admin_routes_run_unauthenticated :
    runChain ⟨none, true⟩ createTenantRouteChain = RouteOutcome.handled ∧
    runChain ⟨none, true⟩ suspendRouteChain = RouteOutcome.handled ∧
    runChain ⟨none, true⟩ reactivateRouteChain = RouteOutcome.handled ∧
    runChain ⟨none, true⟩ deleteRouteChain = RouteOutcome.handled ∧
    runChain ⟨none, true⟩ updateSettingsRouteChain
      = RouteOutcome.unauthorized := by
  exact ⟨rfl, rfl, rfl, rfl, rfl⟩

/-- **C8.** The public lookup endpoint's response is invariant under changing
every tenant's partition identifier (`schema_name`) arbitrarily: for every
slug, what it returns is built only from id, display name, slug, realm name,
status, the `theme`/`logo` settings and the realm's identity providers — it
never contains the partition identifier. -/
theorem lookupTenantEndpoint_no_schema (registry : List Tenant)
    (f : Tenant → String) (idps : List IdentityProvider) (slug : String) :
    lookupTenantEndpoint (registry.map (fun t => { t with schema_name := f t }))
        idps slug
      = lookupTenantEndpoint registry idps slug := by
  unfold lookupTenantEndpoint getTenantBySlug
  induction registry with
  | nil => rfl
  | cons a l ih =>
    rw [List.map_cons]
    cases hb : a.slug == slug with
    | true =>
      have hb' : (({ a with schema_name := f a } : Tenant).slug == slug)
          = true := hb
      simp only [List.find?_cons, hb, hb']
      rfl
    | false =>
      have hb' : (({ a with schema_name := f a } : Tenant).slug == slug)
          = false := hb
      simp only [List.find?_cons, hb, hb']
      exact ih

end TaskHub
